import Mathlib

/-!
Verification development for the NVMe stress-test report generator.

The source programs scrape semi-structured text with Python regular
expressions (`generate_report.py`, class `NVMeLogParser`), merge optional
FIO JSON artifacts (`update_report_with_peak_perf.py`, `parse_fio_json`),
and render HTML reports (`generate_html_report`,
`generate_html_report_with_peak`).

Modelling conventions:
* text is `List Char`; each regular expression of the source is translated
  into a dedicated matcher built from small combinators that implement the
  exact constructs the pattern uses (literals, greedy `+`, lazy `+?`/`*?`,
  optional classes, captures) with the backtracking order of the Python
  `re` engine; `re.search` is leftmost-match (`searchFirst`), `re.findall`
  is the non-overlapping left-to-right scan (`findAll`);
* the character classes `\s` and `\d` are modelled by their ASCII meaning
  (the log files produced by the external tools are ASCII);
* `content.split('after test')[-1]` is modelled by `afterLastMarker`,
  the suffix that follows the last separator occurrence of the
  left-to-right non-overlapping scan;
* file reads that may fail are modelled by `Option`: `none` is the
  caught-exception path of the source;
* recursion that is not structural in the source is driven by an explicit
  fuel argument equal to the text length, so every definition reduces in
  the kernel.
-/

namespace NvmeReport

abbrev Text := List Char

/-- Python `\s` on the ASCII range: space, tab, newline, carriage return,
vertical tab, form feed. -/
def isPySpace (c : Char) : Bool :=
  c = ' ' || c = '\t' || c = '\n' || c = '\r' || c = '\x0b' || c = '\x0c'

/-- Python `\d` on the ASCII range. -/
def isPyDigit (c : Char) : Bool := c.isDigit

/-- The class `[\d,]` from the capacity / data-units patterns. -/
def isDigitComma (c : Char) : Bool := c.isDigit || c = ','

/-- `.` without `re.DOTALL`: any character except a newline. -/
def isNotNL (c : Char) : Bool := c ≠ '\n'

/-- `.` under `re.DOTALL`: any character. -/
def anyChar (_ : Char) : Bool := true

/-- The class `[\d.]` from the IOPS patterns. -/
def isDotOrDigit (c : Char) : Bool := c.isDigit || c = '.'

/-! ### Regular-expression combinators (continuation style) -/

/-- Match a literal, then continue. -/
def litThen (lit : Text) (k : Text → Option α) (l : Text) : Option α :=
  if lit.isPrefixOf l then k (l.drop lit.length) else none

/-- Greedy `p*` (no capture) with backtracking: prefer consuming more. -/
def manyThen (p : Char → Bool) (k : Text → Option α) : Text → Option α
  | [] => k []
  | c :: cs =>
    if p c then
      match manyThen p k cs with
      | some r => some r
      | none => k (c :: cs)
    else k (c :: cs)

/-- Greedy `p+` (no capture). -/
def plusThen (p : Char → Bool) (k : Text → Option α) : Text → Option α
  | [] => none
  | c :: cs => if p c then manyThen p k cs else none

/-- Greedy capturing `p*`: the continuation receives the captured
characters and the rest of the input. -/
def capManyThen (p : Char → Bool) (k : Text → Text → Option α) : Text → Option α
  | [] => k [] []
  | c :: cs =>
    if p c then
      match capManyThen p (fun cap rest => k (c :: cap) rest) cs with
      | some r => some r
      | none => k [] (c :: cs)
    else k [] (c :: cs)

/-- Greedy capturing `p+`, as in `(\d+)`. -/
def capPlusThen (p : Char → Bool) (k : Text → Text → Option α) : Text → Option α
  | [] => none
  | c :: cs =>
    if p c then capManyThen p (fun cap rest => k (c :: cap) rest) cs
    else none

/-- Lazy `p*?` (no capture): prefer consuming less. -/
def lazyManyThen (p : Char → Bool) (k : Text → Option α) (l : Text) : Option α :=
  match k l with
  | some r => some r
  | none =>
    match l with
    | [] => none
    | c :: cs => if p c then lazyManyThen p k cs else none

/-- Lazy capturing `p*?`. -/
def capLazyManyThen (p : Char → Bool) (k : Text → Text → Option α) (l : Text) :
    Option α :=
  match k [] l with
  | some r => some r
  | none =>
    match l with
    | [] => none
    | c :: cs =>
      if p c then capLazyManyThen p (fun cap rest => k (c :: cap) rest) cs
      else none

/-- Lazy capturing `p+?`, as in `(.+?)`. -/
def capLazyPlusThen (p : Char → Bool) (k : Text → Text → Option α) : Text → Option α
  | [] => none
  | c :: cs =>
    if p c then capLazyManyThen p (fun cap rest => k (c :: cap) rest) cs
    else none

/-- Greedy optional character class, as in `[kM]?`; the continuation
receives the consumed characters (at most one) and the rest. -/
def optCharThen (p : Char → Bool) (k : Text → Text → Option α) : Text → Option α
  | [] => k [] []
  | c :: cs =>
    if p c then
      match k [c] cs with
      | some r => some r
      | none => k [] (c :: cs)
    else k [] (c :: cs)

/-- `re.search`: try the matcher at every position, leftmost first. -/
def searchFirst (m : Text → Option α) : Text → Option α
  | [] => m []
  | c :: cs =>
    match m (c :: cs) with
    | some r => some r
    | none => searchFirst m cs

/-- `re.findall`, fuelled: the matcher returns the extracted value and the
rest of the input after the match; every matcher used here consumes at
least one character, so fuel equal to the text length is enough. -/
def findAllAux (m : Text → Option (β × Text)) : Nat → Text → List β
  | 0, _ => []
  | fuel + 1, l =>
    match l with
    | [] => []
    | c :: cs =>
      match m (c :: cs) with
      | some (b, rest) => b :: findAllAux m fuel rest
      | none => findAllAux m fuel cs

def findAll (m : Text → Option (β × Text)) (l : Text) : List β :=
  findAllAux m l.length l

/-! ### Substring search and `str.split(sep)[-1]` -/

/-- Index of the first occurrence of `sep` in `l` (Python `str.find`). -/
def findSub (sep : Text) : Text → Option Nat
  | [] => if sep.isPrefixOf ([] : Text) then some 0 else none
  | c :: cs =>
    if sep.isPrefixOf (c :: cs) then some 0
    else (findSub sep cs).map (· + 1)

/-- Fuelled helper for `afterLastMarker`. -/
def afterLastAux (sep : Text) : Nat → Text → Option Text
  | 0, _ => none
  | fuel + 1, l =>
    match findSub sep l with
    | none => none
    | some i =>
      let rest := l.drop (i + sep.length)
      match afterLastAux sep fuel rest with
      | none => some rest
      | some r => some r

/-- The last element of Python `l.split(sep)` when the separator occurs
(`some`), i.e. the suffix after the last occurrence of the non-overlapping
left-to-right scan; `none` when the separator does not occur. -/
def afterLastMarker (sep l : Text) : Option Text :=
  afterLastAux sep l.length l

/-- Python `needle in hay` for strings. -/
def containsSub (needle hay : Text) : Bool :=
  (findSub needle hay).isSome

/-! ### Small string helpers from the source -/

/-- Python `str.strip()` (ASCII whitespace). -/
def pstrip (s : Text) : Text :=
  ((s.dropWhile isPySpace).reverse.dropWhile isPySpace).reverse

/-- Python `int()` on a string of decimal digits. -/
def digitsToNat (s : Text) : Nat :=
  s.foldl (fun n c => n * 10 + (c.toNat - '0'.toNat)) 0

/-- Decimal rendering of a natural number, as Python string formatting of
an `int`. -/
def natDigits (n : Nat) : Text := Nat.toDigits 10 n

/-- Python `s.split()[0]`: the first whitespace-separated token. -/
def firstToken (s : Text) : Text :=
  (s.dropWhile isPySpace).takeWhile (fun c => !isPySpace c)

/-- Python `str.upper()` (ASCII). -/
def pupper (s : Text) : Text := s.map Char.toUpper

/-! ### One matcher per source regular expression

Each matcher implements matching the pattern at the start of the given
text and returns the group the source consumes. -/

/-- `Model Number:\s+(.+)` -/
def matchModelAt : Text → Option Text :=
  litThen "Model Number:".data <| plusThen isPySpace <|
    capPlusThen isNotNL (fun cap _ => some cap)

/-- `Serial Number:\s+(.+)` -/
def matchSerialAt : Text → Option Text :=
  litThen "Serial Number:".data <| plusThen isPySpace <|
    capPlusThen isNotNL (fun cap _ => some cap)

/-- `Firmware Version:\s+(.+)` -/
def matchFirmwareAt : Text → Option Text :=
  litThen "Firmware Version:".data <| plusThen isPySpace <|
    capPlusThen isNotNL (fun cap _ => some cap)

/-- `Total NVM Capacity:\s+[\d,]+\s+\[(.+?)\]` -/
def matchCapacityAt : Text → Option Text :=
  litThen "Total NVM Capacity:".data <| plusThen isPySpace <|
    plusThen isDigitComma <| plusThen isPySpace <| litThen "[".data <|
      capLazyPlusThen isNotNL (fun cap rest =>
        litThen "]".data (fun _ => some cap) rest)

/-- `NVMe Version:\s+(.+)` -/
def matchNvmeVersionAt : Text → Option Text :=
  litThen "NVMe Version:".data <| plusThen isPySpace <|
    capPlusThen isNotNL (fun cap _ => some cap)

/-- `SMART overall-health self-assessment test result:\s+(.+)` -/
def matchHealthAt : Text → Option Text :=
  litThen "SMART overall-health self-assessment test result:".data <|
    plusThen isPySpace <| capPlusThen isNotNL (fun cap _ => some cap)

/-- `Temperature:\s+(\d+)\s+Celsius` -/
def matchTempAt : Text → Option Text :=
  litThen "Temperature:".data <| plusThen isPySpace <|
    capPlusThen isPyDigit (fun cap rest =>
      (plusThen isPySpace <| litThen "Celsius".data fun _ => some cap) rest)

/-- `Percentage Used:\s+(.+?)%` -/
def matchPercentageAt : Text → Option Text :=
  litThen "Percentage Used:".data <| plusThen isPySpace <|
    capLazyPlusThen isNotNL (fun cap rest =>
      litThen "%".data (fun _ => some cap) rest)

/-- `Temperature Sensor (\d+):\s+(\d+)\s+Celsius`, returning both groups
and the rest of the input after the match (for the `findall` scan). -/
def matchSensorAt : Text → Option ((Text × Text) × Text) :=
  litThen "Temperature Sensor ".data <|
    capPlusThen isPyDigit (fun num rest =>
      (litThen ":".data <| plusThen isPySpace <|
        capPlusThen isPyDigit (fun temp rest2 =>
          (plusThen isPySpace <| litThen "Celsius".data fun rest3 =>
            some ((num, temp), rest3)) rest2)) rest)

/-- `Data Units Read:\s+([\d,]+)\s+\[(.+?)\]` (the source uses group 2). -/
def matchDataReadAt : Text → Option Text :=
  litThen "Data Units Read:".data <| plusThen isPySpace <|
    capPlusThen isDigitComma (fun _g1 rest =>
      (plusThen isPySpace <| litThen "[".data <|
        capLazyPlusThen isNotNL fun g2 rest2 =>
          litThen "]".data (fun _ => some g2) rest2) rest)

/-- `Data Units Written:\s+([\d,]+)\s+\[(.+?)\]` (the source uses group 2). -/
def matchDataWrittenAt : Text → Option Text :=
  litThen "Data Units Written:".data <| plusThen isPySpace <|
    capPlusThen isDigitComma (fun _g1 rest =>
      (plusThen isPySpace <| litThen "[".data <|
        capLazyPlusThen isNotNL fun g2 rest2 =>
          litThen "]".data (fun _ => some g2) rest2) rest)

/-- `Run status group 0.*?READ:\s+bw=(\d+)MiB/s.*?io=(.+?)\(` with
`re.DOTALL` (the source uses group 1). -/
def matchReadPerfAt : Text → Option Text :=
  litThen "Run status group 0".data <| lazyManyThen anyChar <|
    litThen "READ:".data <| plusThen isPySpace <| litThen "bw=".data <|
      capPlusThen isPyDigit (fun bw rest =>
        (litThen "MiB/s".data <| lazyManyThen anyChar <| litThen "io=".data <|
          capLazyPlusThen anyChar fun _io r2 =>
            litThen "(".data (fun _ => some bw) r2) rest)

/-- `Run status group 0.*?WRITE:\s+bw=(\d+)MiB/s` with `re.DOTALL`. -/
def matchWritePerfAt : Text → Option Text :=
  litThen "Run status group 0".data <| lazyManyThen anyChar <|
    litThen "WRITE:".data <| plusThen isPySpace <| litThen "bw=".data <|
      capPlusThen isPyDigit (fun bw rest =>
        litThen "MiB/s".data (fun _ => some bw) rest)

/-- `Run status group 1.*?WRITE:\s+bw=(\d+)MiB/s` with `re.DOTALL`. -/
def matchCheckpointPerfAt : Text → Option Text :=
  litThen "Run status group 1".data <| lazyManyThen anyChar <|
    litThen "WRITE:".data <| plusThen isPySpace <| litThen "bw=".data <|
      capPlusThen isPyDigit (fun bw rest =>
        litThen "MiB/s".data (fun _ => some bw) rest)

/-- `read: IOPS=([\d.]+[kM]?),` -/
def matchReadIopsAt : Text → Option Text :=
  litThen "read: IOPS=".data <|
    capPlusThen isDotOrDigit (fun num rest =>
      optCharThen (fun c => c = 'k' || c = 'M')
        (fun suf r2 => litThen ",".data (fun _ => some (num ++ suf)) r2) rest)

/-- `write: IOPS=([\d.]+[kM]?),` -/
def matchWriteIopsAt : Text → Option Text :=
  litThen "write: IOPS=".data <|
    capPlusThen isDotOrDigit (fun num rest =>
      optCharThen (fun c => c = 'k' || c = 'M')
        (fun suf r2 => litThen ",".data (fun _ => some (num ++ suf)) r2) rest)

/-- `ai_model_checkpoint.*?write: IOPS=(\d+)` with `re.DOTALL`. -/
def matchCheckpointIopsAt : Text → Option Text :=
  litThen "ai_model_checkpoint".data <| lazyManyThen anyChar <|
    litThen "write: IOPS=".data <|
      capPlusThen isPyDigit (fun n _ => some n)

/-- `Error Information Log Entries:\s+(\d+)` -/
def matchErrorsAt : Text → Option Text :=
  litThen "Error Information Log Entries:".data <| plusThen isPySpace <|
    capPlusThen isPyDigit (fun n _ => some n)

/-! ### The per-device record (`NVMeLogParser.data`) -/

/-- The flat per-device dictionary built by `NVMeLogParser`.  The optional
peak fields model dictionary keys that are only inserted by the
peak-performance merge step (`none` = key absent). -/
structure DeviceData where
  drive_name : Text
  model : Text
  serial : Text
  firmware : Text
  capacity : Text
  nvme_version : Text
  pci_gen : Text
  health_status : Text
  temp_before : Text
  temp_after : Text
  temp_sensors_after : List (Text × Text)
  percentage_used : Text
  data_read : Text
  data_written : Text
  read_iops : Text
  read_bw : Text
  write_iops : Text
  write_bw : Text
  checkpoint_write_iops : Text
  checkpoint_write_bw : Text
  errors : Nat
  test_duration : Text
  workload : Text
  peak_read_bw : Option Text
  peak_write_bw : Option Text
deriving DecidableEq, Repr

/-- The dictionary as initialised in `NVMeLogParser.__init__`. -/
def defaultData (nm : Text) : DeviceData where
  drive_name := nm
  model := "Unknown".data
  serial := "Unknown".data
  firmware := "Unknown".data
  capacity := "Unknown".data
  nvme_version := "Unknown".data
  pci_gen := "Unknown".data
  health_status := "Unknown".data
  temp_before := "Unknown".data
  temp_after := "Unknown".data
  temp_sensors_after := []
  percentage_used := "Unknown".data
  data_read := "Unknown".data
  data_written := "Unknown".data
  read_iops := "Unknown".data
  read_bw := "Unknown".data
  write_iops := "Unknown".data
  write_bw := "Unknown".data
  checkpoint_write_iops := "Unknown".data
  checkpoint_write_bw := "Unknown".data
  errors := 0
  test_duration := "10 minutes".data
  workload := "AI Data Load & Model Checkpoint".data
  peak_read_bw := none
  peak_write_bw := none

/-- The `'after test'` marker on which `parse` splits the log text. -/
def afterTestMarker : Text := "after test".data

/-- A stripped single-line field (`group(1).strip()`), with the `'Unknown'`
default when the pattern finds no match. -/
def strField (r : Option Text) (dflt : Text) : Text :=
  match r with
  | some s => pstrip s
  | none => dflt

/-- Post-test temperature extracted from an after-test section. -/
def temp_after_of (sec : Text) : Text :=
  match searchFirst matchTempAt sec with
  | some v => v
  | none => "Unknown".data

/-- Post-test sensor list extracted from an after-test section:
`[(f"Sensor {num}", temp) for num, temp in temp_sensors]`. -/
def temp_sensors_of (sec : Text) : List (Text × Text) :=
  (findAll matchSensorAt sec).map fun p => ("Sensor ".data ++ p.1, p.2)

/-- Post-test data-units-read field extracted from an after-test section. -/
def data_read_of (sec : Text) : Text :=
  strField (searchFirst matchDataReadAt sec) "Unknown".data

/-- Post-test data-units-written field extracted from an after-test
section. -/
def data_written_of (sec : Text) : Text :=
  strField (searchFirst matchDataWrittenAt sec) "Unknown".data

/-- `NVMeLogParser.parse` on successfully read file content: every field is
one independent search; the four post-test fields are extracted from the
last element of `content.split('after test')` and keep their defaults when
the marker is absent. -/
def parseContent (nm content : Text) : DeviceData where
  drive_name := nm
  model := strField (searchFirst matchModelAt content) "Unknown".data
  serial := strField (searchFirst matchSerialAt content) "Unknown".data
  firmware := strField (searchFirst matchFirmwareAt content) "Unknown".data
  capacity := strField (searchFirst matchCapacityAt content) "Unknown".data
  nvme_version := strField (searchFirst matchNvmeVersionAt content) "Unknown".data
  pci_gen := "Unknown".data
  health_status := strField (searchFirst matchHealthAt content) "Unknown".data
  temp_before :=
    match searchFirst matchTempAt content with
    | some v => v
    | none => "Unknown".data
  temp_after :=
    match afterLastMarker afterTestMarker content with
    | some sec => temp_after_of sec
    | none => "Unknown".data
  temp_sensors_after :=
    match afterLastMarker afterTestMarker content with
    | some sec => temp_sensors_of sec
    | none => []
  percentage_used := strField (searchFirst matchPercentageAt content) "Unknown".data
  data_read :=
    match afterLastMarker afterTestMarker content with
    | some sec => data_read_of sec
    | none => "Unknown".data
  data_written :=
    match afterLastMarker afterTestMarker content with
    | some sec => data_written_of sec
    | none => "Unknown".data
  read_iops :=
    match searchFirst matchReadIopsAt content with
    | some v => v
    | none => "Unknown".data
  read_bw :=
    match searchFirst matchReadPerfAt content with
    | some bw => bw ++ " MiB/s".data
    | none => "Unknown".data
  write_iops :=
    match searchFirst matchWriteIopsAt content with
    | some v => v
    | none => "Unknown".data
  write_bw :=
    match searchFirst matchWritePerfAt content with
    | some bw => bw ++ " MiB/s".data
    | none => "Unknown".data
  checkpoint_write_iops :=
    match searchFirst matchCheckpointIopsAt content with
    | some v => v
    | none => "Unknown".data
  checkpoint_write_bw :=
    match searchFirst matchCheckpointPerfAt content with
    | some bw => bw ++ " MiB/s".data
    | none => "Unknown".data
  errors :=
    match searchFirst matchErrorsAt content with
    | some ds => digitsToNat ds
    | none => 0
  test_duration := "10 minutes".data
  workload := "AI Data Load & Model Checkpoint".data
  peak_read_bw := none
  peak_write_bw := none

/-- `NVMeLogParser.parse` including the exception boundary: `none` models a
file that cannot be read, in which case the caught-exception path returns
the untouched default record. -/
def parse (nm : Text) : Option Text → DeviceData
  | none => defaultData nm
  | some content => parseContent nm content

/-! ### `get_pcie_info` (generate_report.py) -/

/-- The generation label derived from the raw link-speed string by the
`if`/`elif` chain of `get_pcie_info`. -/
def pcieGenOf (speed : Text) : Text :=
  if containsSub "32.0 GT/s".data speed || containsSub "32 GT/s".data speed then
    "PCIe 5.0".data
  else if containsSub "16.0 GT/s".data speed || containsSub "16 GT/s".data speed then
    "PCIe 4.0".data
  else if containsSub "8.0 GT/s".data speed || containsSub "8 GT/s".data speed then
    "PCIe 3.0".data
  else "Unknown".data

/-- `get_pcie_info`: the host-level query result is modelled as
`some (speed, width)`, and `none` models any exception inside the `try`
block (the bare `except` path). -/
def get_pcie_info : Option (Text × Text) → Text × Text
  | some (speed, width) => (pcieGenOf speed ++ " x".data ++ width, speed)
  | none => ("Unknown".data, "Unknown".data)

/-! ### `parse_fio_json` and the peak merge (update_report_with_peak_perf.py) -/

/-- The `read`/`write` sub-object of a FIO job; `bw` is the bandwidth in
KB/s, `none` models an absent `bw` key.  FIO reports bandwidth as a
non-negative integer, so it is modelled as `Nat` and Python
`int(bw / 1024)` is truncating division `bw / 1024`. -/
structure FioDirStats where
  bw : Option Nat
deriving DecidableEq, Repr

/-- One element of the `jobs` array; `none` models an absent key. -/
structure FioJob where
  read : Option FioDirStats
  write : Option FioDirStats
deriving DecidableEq, Repr

/-- The decoded JSON document; `jobs = none` models an absent `jobs` key. -/
structure FioData where
  jobs : Option (List FioJob)
deriving DecidableEq, Repr

/-- The `elif` branch of `parse_fio_json`:
`'write' in job and 'bw' in job['write'] and job['write']['bw'] > 0`. -/
def fio_write_branch (job : FioJob) : Option Nat :=
  match job.write with
  | some w =>
    match w.bw with
    | some b => if b > 0 then some (b / 1024) else none
    | none => none
  | none => none

/-- `parse_fio_json`: the argument is `none` when the file cannot be read
or its JSON cannot be decoded (the caught-exception path returns `None`);
otherwise only the first element of `jobs` is consulted, the `read` branch
before the `write` branch. -/
def parse_fio_json : Option FioData → Option Nat
  | none => none
  | some data =>
    match data.jobs with
    | some (job :: _) =>
      (match job.read with
       | some r =>
         match r.bw with
         | some b => if b > 0 then some (b / 1024) else fio_write_branch job
         | none => fio_write_branch job
       | none => fio_write_branch job)
    | _ => none

/-- The merge step of `main` for one device: each artifact argument is
`none` when the JSON file does not exist (`Path.exists` is false), and
`some j` when it exists with `j` the input handed to `parse_fio_json`.
A field is set only when the parsed value is truthy (`if peak_read:`),
i.e. not `None` and not `0`. -/
def merge_peak (d : DeviceData) (readArtifact writeArtifact : Option (Option FioData)) :
    DeviceData :=
  let d1 :=
    match readArtifact with
    | some a =>
      match parse_fio_json a with
      | some n =>
        if n ≠ 0 then { d with peak_read_bw := some (natDigits n ++ " MiB/s".data) }
        else d
      | none => d
    | none => d
  match writeArtifact with
  | some a =>
    match parse_fio_json a with
    | some n =>
      if n ≠ 0 then { d1 with peak_write_bw := some (natDigits n ++ " MiB/s".data) }
      else d1
    | none => d1
  | none => d1

/-! ### Shared renderer pieces -/

/-- The status-badge class of a drive card in `generate_html_report`:
`'status-passed' if drive['health_status'] == 'PASSED' and
drive['errors'] == 0 else 'status-failed'`. -/
def status_class (d : DeviceData) : Text :=
  if d.health_status = "PASSED".data ∧ d.errors = 0 then "status-passed".data
  else "status-failed".data

/-- The status-badge text of `generate_html_report` (`'PASSED ✓'` /
`'CHECK'`; the plain source file holds the same check-mark text with
mojibake bytes). -/
def status_text (d : DeviceData) : Text :=
  if d.health_status = "PASSED".data ∧ d.errors = 0 then "PASSED ✓".data
  else "CHECK".data

/-- The status-badge class of `generate_html_report_with_peak` (the second
source file duplicates the expression verbatim). -/
def status_class_peak (d : DeviceData) : Text :=
  if d.health_status = "PASSED".data ∧ d.errors = 0 then "status-passed".data
  else "status-failed".data

/-- The status-badge text of `generate_html_report_with_peak`. -/
def status_text_peak (d : DeviceData) : Text :=
  if d.health_status = "PASSED".data ∧ d.errors = 0 then "PASSED ✓".data
  else "CHECK".data

/-- `passed_count` of `generate_html_report`:
`sum(1 for d in drives_data if d['health_status'] == 'PASSED' and
d['errors'] == 0)`. -/
def passed_count (drives : List DeviceData) : Nat :=
  (drives.map fun d =>
    if d.health_status = "PASSED".data ∧ d.errors = 0 then 1 else 0).sum

/-- `passed_count` of `generate_html_report_with_peak` (textually the same
expression in the second source file). -/
def passed_count_peak (drives : List DeviceData) : Nat :=
  (drives.map fun d =>
    if d.health_status = "PASSED".data ∧ d.errors = 0 then 1 else 0).sum

/-- Lexicographic comparison of texts by character code points, the order
Python `sorted` uses on strings. -/
def charListLe : Text → Text → Bool
  | [], _ => true
  | _ :: _, [] => false
  | a :: as, b :: bs =>
    if a.toNat < b.toNat then true
    else if b.toNat < a.toNat then false
    else charListLe as bs

/-- `sorted(drives_data, key=lambda x: x['drive_name'])`, shared by both
renderers (a stable sort, as Python's). -/
def sortDrives (drives : List DeviceData) : List DeviceData :=
  drives.mergeSort fun a b => charListLe a.drive_name b.drive_name

/-! ### The plain renderer (`generate_html_report`)

The static HTML/CSS of the source template carries no data, so it is
abbreviated to short literal chunks here; the dynamic interpolations and
their order follow the source template exactly. -/

/-- One drive card of the plain report. -/
def driveCard (d : DeviceData) : Text :=
  "<div class=\"drive-card\"><div class=\"drive-name\">".data ++ pupper d.drive_name ++
  "</div><div class=\"status-badge ".data ++ status_class d ++
  "\">".data ++ status_text d ++
  "</div><div>Model ".data ++ d.model ++
  "</div><div>Serial Number ".data ++ d.serial ++
  "</div><div>Capacity ".data ++ d.capacity ++
  "</div><div>Firmware ".data ++ d.firmware ++
  "</div><div>NVMe Version ".data ++ d.nvme_version ++
  "</div><div>Health Status ".data ++ d.health_status ++
  "</div><div>Percentage Used ".data ++ d.percentage_used ++
  "%</div><div>Error Count ".data ++ natDigits d.errors ++
  "</div><div>Read Bandwidth ".data ++ d.read_bw ++
  "</div><div>Read IOPS ".data ++ d.read_iops ++
  "</div><div>Write Bandwidth ".data ++ d.write_bw ++
  "</div><div>Write IOPS ".data ++ d.write_iops ++
  "</div><div>Data Read ".data ++ d.data_read ++
  "</div><div>Data Written ".data ++ d.data_written ++
  "</div><div>Before Test ".data ++ d.temp_before ++
  "°C</div><div>After Test ".data ++ d.temp_after ++
  "°C</div>".data ++
  (d.temp_sensors_after.map fun p =>
    "<div>".data ++ p.1 ++ " ".data ++ p.2 ++ "°C</div>".data).flatten ++
  "</div>".data

/-- The header block of the plain report (summary cards). -/
def htmlHeader (total passed : Nat) (pcie_info pcie_speed : Text) : Text :=
  "<!DOCTYPE html><html><head><title>NVMe Stress Test Report</title></head><body><div class=\"header\"><div>Total Drives Tested ".data ++
  natDigits total ++
  "</div><div>Drives Passed ".data ++ natDigits passed ++
  "</div><div>PCIe Interface ".data ++ pcie_info ++ " ".data ++ pcie_speed ++
  "</div><div>Test Type AI Workload</div><div>Duration 10 min</div></div>".data

/-- The footer of the plain report, up to the generation timestamp. -/
def footerPre (pcie_info pcie_speed : Text) : Text :=
  "<div class=\"footer\"><h3>Test Summary</h3><p>All drives are running at ".data ++
  pcie_info ++ " (".data ++ pcie_speed ++
  ")</p><p class=\"timestamp\">Report generated on ".data

/-- The footer of the plain report after the generation timestamp. -/
def footerPost : Text := "</p></div></div></body></html>".data

/-- `generate_html_report`: header, one card per drive in sorted order,
footer with the embedded generation timestamp. -/
def generate_html_report (drives : List DeviceData)
    (pcie_info pcie_speed current_time : Text) : Text :=
  htmlHeader drives.length (passed_count drives) pcie_info pcie_speed ++
  ((sortDrives drives).map driveCard).flatten ++
  (footerPre pcie_info pcie_speed ++ current_time ++ footerPost)

/-- Everything of the plain report that precedes the timestamp. -/
def reportPrefix (drives : List DeviceData) (pcie_info pcie_speed : Text) : Text :=
  htmlHeader drives.length (passed_count drives) pcie_info pcie_speed ++
  ((sortDrives drives).map driveCard).flatten ++
  footerPre pcie_info pcie_speed

/-! ### The peak-performance renderer (`generate_html_report_with_peak`) -/

/-- The model-name truncation of the peak renderer. -/
def model_display (m : Text) : Text :=
  if m.length > 30 then m.take 27 ++ "...".data else m

/-- `drive.get('peak_read_bw', 'N/A')`. -/
def peak_read_display (d : DeviceData) : Text := d.peak_read_bw.getD "N/A".data

/-- `drive.get('peak_write_bw', 'N/A')`. -/
def peak_write_display (d : DeviceData) : Text := d.peak_write_bw.getD "N/A".data

/-- One drive card of the peak report (adds the peak section and the
truncated model display). -/
def driveCardPeak (d : DeviceData) : Text :=
  "<div class=\"drive-card\"><div class=\"drive-name\">".data ++ pupper d.drive_name ++
  "</div><div class=\"status-badge ".data ++ status_class_peak d ++
  "\">".data ++ status_text_peak d ++
  "</div><div>Model <span title=\"".data ++ d.model ++
  "\">".data ++ model_display d.model ++
  "</span></div><div>Serial Number ".data ++ d.serial ++
  "</div><div>Capacity ".data ++ d.capacity ++
  "</div><div>Firmware ".data ++ d.firmware ++
  "</div><div>NVMe Version ".data ++ d.nvme_version ++
  "</div><div>Health Status ".data ++ d.health_status ++
  "</div><div>Percentage Used ".data ++ d.percentage_used ++
  "%</div><div>Error Count ".data ++ natDigits d.errors ++
  "</div><div>Peak Read Speed ".data ++ peak_read_display d ++
  "</div><div>Peak Write Speed ".data ++ peak_write_display d ++
  "</div><div>Read Bandwidth ".data ++ d.read_bw ++
  "</div><div>Read IOPS ".data ++ d.read_iops ++
  "</div><div>Write Bandwidth ".data ++ d.write_bw ++
  "</div><div>Write IOPS ".data ++ d.write_iops ++
  "</div><div>Data Read ".data ++ d.data_read ++
  "</div><div>Data Written ".data ++ d.data_written ++
  "</div><div>Before Test ".data ++ d.temp_before ++
  "°C</div><div>After Test ".data ++ d.temp_after ++
  "°C</div>".data ++
  (d.temp_sensors_after.map fun p =>
    "<div>".data ++ p.1 ++ " ".data ++ p.2 ++ "°C</div>".data).flatten ++
  "</div>".data

/-- `d.get('peak_read_bw', 'N/A') != 'N/A'`, the presence filter of the
average computation. -/
def has_peak_read (d : DeviceData) : Bool :=
  decide (d.peak_read_bw.getD "N/A".data ≠ "N/A".data)

/-- `d.get('peak_write_bw', 'N/A') != 'N/A'`. -/
def has_peak_write (d : DeviceData) : Bool :=
  decide (d.peak_write_bw.getD "N/A".data ≠ "N/A".data)

/-- `sum(1 for d in drives_data if d.get('peak_read_bw','N/A') != 'N/A')`. -/
def peak_read_count (drives : List DeviceData) : Nat :=
  (drives.map fun d => if has_peak_read d then 1 else 0).sum

/-- `sum(1 for d in drives_data if d.get('peak_write_bw','N/A') != 'N/A')`. -/
def peak_write_count (drives : List DeviceData) : Nat :=
  (drives.map fun d => if has_peak_write d then 1 else 0).sum

/-- `avg_peak_read`: the sum of `int(d.get('peak_read_bw','0').split()[0])`
over the devices with the field, divided (exactly, in `ℚ`, as the values
here stay far below the range where float division of integers loses
exactness) by `max(count, 1)`. -/
def avg_peak_read (drives : List DeviceData) : ℚ :=
  ((drives.filter has_peak_read).map fun d =>
    (digitsToNat (firstToken (d.peak_read_bw.getD "0".data)) : ℚ)).sum /
  (max (peak_read_count drives) 1 : ℚ)

/-- `avg_peak_write`, analogously. -/
def avg_peak_write (drives : List DeviceData) : ℚ :=
  ((drives.filter has_peak_write).map fun d =>
    (digitsToNat (firstToken (d.peak_write_bw.getD "0".data)) : ℚ)).sum /
  (max (peak_write_count drives) 1 : ℚ)

/-- The Python `:.0f` display of a (non-negative) average, modelled as
rounding to the nearest integer; the exact tie-breaking of float
formatting is immaterial to every claim. -/
def fmtF0 (q : ℚ) : Text := natDigits (round q).toNat

/-- The header block of the peak report. -/
def htmlHeaderPeak (total passed : Nat) (pcie_info pcie_speed : Text) : Text :=
  "<!DOCTYPE html><html><head><title>NVMe Stress Test Report</title></head><body><div class=\"header\"><div>Total Drives Tested ".data ++
  natDigits total ++
  "</div><div>Drives Passed ".data ++ natDigits passed ++
  "</div><div>PCIe Interface ".data ++ pcie_info ++ " ".data ++ pcie_speed ++
  "</div><div>Test Type AI + Peak</div><div>Duration 3 hours</div></div>".data

/-- The footer of the peak report up to the timestamp (embeds the averaged
peak bandwidths). -/
def footerPrePeak (drives : List DeviceData) (pcie_info pcie_speed : Text) : Text :=
  "<div class=\"footer\"><h3>Test Summary</h3><p>All drives are running at ".data ++
  pcie_info ++ " (".data ++ pcie_speed ++
  ")</p><p>Average peak sequential read: ~".data ++ fmtF0 (avg_peak_read drives) ++
  " MiB/s, Peak sequential write: ~".data ++ fmtF0 (avg_peak_write drives) ++
  " MiB/s per drive.</p><p class=\"timestamp\">Report generated on ".data

/-- `generate_html_report_with_peak`. -/
def generate_html_report_with_peak (drives : List DeviceData)
    (pcie_info pcie_speed current_time : Text) : Text :=
  htmlHeaderPeak drives.length (passed_count_peak drives) pcie_info pcie_speed ++
  ((sortDrives drives).map driveCardPeak).flatten ++
  (footerPrePeak drives pcie_info pcie_speed ++ current_time ++ footerPost)

/-! ### Lemmas about substring search and the marker split -/

theorem findSub_nil_of_ne (sep : Text) (hsep : sep ≠ []) :
    findSub sep ([] : Text) = none := by
  cases sep with
  | nil => exact absurd rfl hsep
  | cons c cs => simp [findSub, List.isPrefixOf]

theorem findSub_some_decomp (sep : Text) :
    ∀ (l : Text) (i : Nat), findSub sep l = some i →
      l = l.take i ++ sep ++ l.drop (i + sep.length) := by
  intro l
  induction l with
  | nil =>
    intro i h
    simp only [findSub] at h
    split at h
    · rename_i hpre
      have hsep : sep = [] := by
        have := List.isPrefixOf_iff_prefix.mp hpre
        simpa using this
      cases h
      simp [hsep]
    · cases h
  | cons c cs ih =>
    intro i h
    simp only [findSub] at h
    split at h
    · rename_i hpre
      cases h
      obtain ⟨t, ht⟩ := List.isPrefixOf_iff_prefix.mp hpre
      have hd : (c :: cs).drop (0 + sep.length) = t := by
        rw [Nat.zero_add, ← ht, List.drop_left]
      simp [hd, ← ht]
    · rw [Option.map_eq_some'] at h
      obtain ⟨j, hj, rfl⟩ := h
      have := ih j hj
      have hdrop : (c :: cs).drop (j + 1 + sep.length) = cs.drop (j + sep.length) := by
        have : j + 1 + sep.length = (j + sep.length) + 1 := by omega
        rw [this]
        rfl
      calc c :: cs = c :: (cs.take j ++ sep ++ cs.drop (j + sep.length)) := by rw [← this]
        _ = (c :: cs).take (j + 1) ++ sep ++ (c :: cs).drop (j + 1 + sep.length) := by
            rw [hdrop]; rfl

theorem findSub_none_iff (sep : Text) (hsep : sep ≠ []) :
    ∀ l : Text, findSub sep l = none ↔ ¬ (sep <:+: l) := by
  intro l
  induction l with
  | nil =>
    simp [findSub_nil_of_ne sep hsep, List.infix_nil, hsep]
  | cons c cs ih =>
    by_cases hpre : sep.isPrefixOf (c :: cs)
    · simp only [findSub, hpre, if_true]
      have : sep <:+: c :: cs :=
        (List.isPrefixOf_iff_prefix.mp hpre).isInfix
      simp [this]
    · have hp : ¬ (sep <+: c :: cs) := fun hp =>
        hpre (List.isPrefixOf_iff_prefix.mpr hp)
      simp only [findSub, hpre, Bool.false_eq_true, if_false,
        Option.map_eq_none']
      rw [ih, List.infix_cons_iff]
      tauto

theorem drop_length_lt_of_findSub (sep l : Text) (i : Nat) (hsep : sep ≠ [])
    (h : findSub sep l = some i) :
    (l.drop (i + sep.length)).length < l.length := by
  have hdec := findSub_some_decomp sep l i h
  have hlen : l.length =
      (l.take i).length + sep.length + (l.drop (i + sep.length)).length := by
    conv_lhs => rw [hdec]
    simp [List.length_append]
    omega
  have hpos : 0 < sep.length := List.length_pos.mpr hsep
  omega

theorem afterLastAux_ne_none_of_findSub (sep : Text) (fuel : Nat) (l : Text)
    (i : Nat) (h : findSub sep l = some i) :
    afterLastAux sep (fuel + 1) l ≠ none := by
  simp only [afterLastAux, h]
  cases afterLastAux sep fuel (l.drop (i + sep.length)) <;> simp

theorem afterLastAux_none_iff (sep : Text) (hsep : sep ≠ []) :
    ∀ (fuel : Nat) (l : Text), l.length ≤ fuel →
      (afterLastAux sep fuel l = none ↔ findSub sep l = none) := by
  intro fuel
  induction fuel with
  | zero =>
    intro l hle
    have : l = [] := List.length_eq_zero.mp (Nat.le_zero.mp hle)
    subst this
    simp [afterLastAux, findSub_nil_of_ne sep hsep]
  | succ fuel ih =>
    intro l hle
    cases hf : findSub sep l with
    | none => simp [afterLastAux, hf]
    | some i =>
      constructor
      · intro hn
        exact absurd hn (afterLastAux_ne_none_of_findSub sep fuel l i hf)
      · intro hn
        cases hn

theorem afterLastAux_some (sep : Text) (hsep : sep ≠ []) :
    ∀ (fuel : Nat) (l b : Text), l.length ≤ fuel →
      afterLastAux sep fuel l = some b →
      (∃ a, l = a ++ sep ++ b) ∧ findSub sep b = none := by
  intro fuel
  induction fuel with
  | zero => intro l b _ h; cases h
  | succ fuel ih =>
    intro l b hle h
    cases hf : findSub sep l with
    | none => simp [afterLastAux, hf] at h
    | some i =>
      simp only [afterLastAux, hf] at h
      have hdec := findSub_some_decomp sep l i hf
      have hlt := drop_length_lt_of_findSub sep l i hsep hf
      have hle2 : (l.drop (i + sep.length)).length ≤ fuel := by omega
      cases h2 : afterLastAux sep fuel (l.drop (i + sep.length)) with
      | none =>
        rw [h2] at h
        simp only [Option.some.injEq] at h
        subst h
        refine ⟨⟨l.take i, hdec⟩, ?_⟩
        exact (afterLastAux_none_iff sep hsep fuel _ hle2).mp h2
      | some r =>
        rw [h2] at h
        simp only [Option.some.injEq] at h
        subst h
        obtain ⟨⟨a, ha⟩, hnone⟩ := ih (l.drop (i + sep.length)) r hle2 h2
        refine ⟨⟨l.take i ++ sep ++ a, ?_⟩, hnone⟩
        conv_lhs => rw [hdec]
        rw [ha]
        simp [List.append_assoc]

theorem afterLastMarker_some (sep l b : Text) (hsep : sep ≠ [])
    (h : afterLastMarker sep l = some b) :
    (∃ a, l = a ++ sep ++ b) ∧ ¬ (sep <:+: b) := by
  obtain ⟨ha, hnone⟩ :=
    afterLastAux_some sep hsep l.length l b (Nat.le_refl _) h
  exact ⟨ha, (findSub_none_iff sep hsep b).mp hnone⟩

theorem afterLastMarker_none_of_not_sub (sep l : Text) (hsep : sep ≠ [])
    (h : ¬ (sep <:+: l)) : afterLastMarker sep l = none :=
  (afterLastAux_none_iff sep hsep l.length l (Nat.le_refl _)).mpr
    ((findSub_none_iff sep hsep l).mpr h)

theorem afterTestMarker_ne_nil : afterTestMarker ≠ [] := by
  decide

/-! ### Lemmas about the lexicographic order and counting -/

theorem charListLe_total : ∀ a b : Text,
    (charListLe a b || charListLe b a) = true := by
  intro a
  induction a with
  | nil => intro b; simp [charListLe]
  | cons x xs ih =>
    intro b
    cases b with
    | nil => simp [charListLe]
    | cons y ys =>
      simp only [charListLe]
      rcases Nat.lt_trichotomy x.toNat y.toNat with h | h | h
      · simp [h]
      · simp [h, ih ys]
      · simp [h, Nat.lt_asymm h]

theorem charListLe_trans : ∀ a b c : Text,
    charListLe a b = true → charListLe b c = true → charListLe a c = true := by
  intro a
  induction a with
  | nil => intro b c _ _; rfl
  | cons x xs ih =>
    intro b c h1 h2
    cases b with
    | nil => simp [charListLe] at h1
    | cons y ys =>
      cases c with
      | nil => simp [charListLe] at h2
      | cons z zs =>
        simp only [charListLe] at h1 h2 ⊢
        split_ifs at h1 h2 ⊢ <;> first
          | rfl
          | omega
          | exact ih ys zs h1 h2

theorem indicator_sum_eq_countP (p : DeviceData → Prop) [DecidablePred p]
    (l : List DeviceData) :
    (l.map fun d => if p d then 1 else 0).sum =
      l.countP fun d => decide (p d) := by
  induction l with
  | nil => simp
  | cons d l ih =>
    by_cases h : p d <;> simp [List.countP_cons, h, ih, Nat.add_comm]

/-! ### Example inputs used by the claims -/

/-- A log text with two temperature blocks separated by the marker. -/
def exPostText : Text :=
  "Temperature: 40 Celsius x after test x Temperature: 55 Celsius".data

/-- The suffix of `exPostText` after the last marker occurrence. -/
def exPostSuffix : Text := " x Temperature: 55 Celsius".data

/-- A log text whose only temperature line follows the marker. -/
def exOnlyAfterText : Text := "x after test Temperature: 55 Celsius".data

/-- A log text with a temperature line and no marker. -/
def exNoMarkerText : Text := "Temperature: 40 Celsius".data

/-! ### Claim theorems -/

/-- C1: every post-test field (temp_after, the sensor list, data_read,
data_written) is extracted only from the substring after the last
occurrence of the literal marker `'after test'`: whenever the split yields
a final section `b`, the input decomposes as `a ++ marker ++ b` with no
marker occurrence inside `b`, and the post-test fields of the parse are
exactly the extractions from `b`; on a marker-free text (such as `b`
itself) all post-test fields keep their defaults; and on the two-block
example the parse yields temp_before = 40 and temp_after = 55. -/
theorem post_test_scoping (nm t b u : Text)
    (h : afterLastMarker afterTestMarker t = some b)
    (hu : ¬ (afterTestMarker <:+: u)) :
    ((∃ a, t = a ++ afterTestMarker ++ b) ∧ ¬ (afterTestMarker <:+: b)) ∧
    ((parseContent nm t).temp_after = temp_after_of b ∧
     (parseContent nm t).temp_sensors_after = temp_sensors_of b ∧
     (parseContent nm t).data_read = data_read_of b ∧
     (parseContent nm t).data_written = data_written_of b) ∧
    ((parseContent nm u).temp_after = "Unknown".data ∧
     (parseContent nm u).temp_sensors_after = [] ∧
     (parseContent nm u).data_read = "Unknown".data ∧
     (parseContent nm u).data_written = "Unknown".data) ∧
    ((parseContent nm exPostText).temp_before = "40".data ∧
     (parseContent nm exPostText).temp_after = "55".data) := by
  obtain ⟨hex, hni⟩ :=
    afterLastMarker_some afterTestMarker t b afterTestMarker_ne_nil h
  have hbn : afterLastMarker afterTestMarker u = none :=
    afterLastMarker_none_of_not_sub afterTestMarker u afterTestMarker_ne_nil hu
  refine ⟨⟨hex, hni⟩, ⟨?_, ?_, ?_, ?_⟩, ⟨?_, ?_, ?_, ?_⟩, rfl, rfl⟩
  · show (match afterLastMarker afterTestMarker t with
      | some sec => temp_after_of sec
      | none => "Unknown".data) = temp_after_of b
    rw [h]
  · show (match afterLastMarker afterTestMarker t with
      | some sec => temp_sensors_of sec
      | none => []) = temp_sensors_of b
    rw [h]
  · show (match afterLastMarker afterTestMarker t with
      | some sec => data_read_of sec
      | none => "Unknown".data) = data_read_of b
    rw [h]
  · show (match afterLastMarker afterTestMarker t with
      | some sec => data_written_of sec
      | none => "Unknown".data) = data_written_of b
    rw [h]
  · show (match afterLastMarker afterTestMarker u with
      | some sec => temp_after_of sec
      | none => "Unknown".data) = "Unknown".data
    rw [hbn]
  · show (match afterLastMarker afterTestMarker u with
      | some sec => temp_sensors_of sec
      | none => []) = ([] : List (Text × Text))
    rw [hbn]
  · show (match afterLastMarker afterTestMarker u with
      | some sec => data_read_of sec
      | none => "Unknown".data) = "Unknown".data
    rw [hbn]
  · show (match afterLastMarker afterTestMarker u with
      | some sec => data_written_of sec
      | none => "Unknown".data) = "Unknown".data
    rw [hbn]

/-- C1 witness: the theorem instantiated at the two-block example text. -/
theorem post_test_scoping_witness :
    ((∃ a, exPostText = a ++ afterTestMarker ++ exPostSuffix) ∧
      ¬ (afterTestMarker <:+: exPostSuffix)) ∧
    ((parseContent "nvme0n1".data exPostText).temp_after =
        temp_after_of exPostSuffix ∧
     (parseContent "nvme0n1".data exPostText).temp_sensors_after =
        temp_sensors_of exPostSuffix ∧
     (parseContent "nvme0n1".data exPostText).data_read =
        data_read_of exPostSuffix ∧
     (parseContent "nvme0n1".data exPostText).data_written =
        data_written_of exPostSuffix) ∧
    ((parseContent "nvme0n1".data exNoMarkerText).temp_after = "Unknown".data ∧
     (parseContent "nvme0n1".data exNoMarkerText).temp_sensors_after = [] ∧
     (parseContent "nvme0n1".data exNoMarkerText).data_read = "Unknown".data ∧
     (parseContent "nvme0n1".data exNoMarkerText).data_written = "Unknown".data) ∧
    ((parseContent "nvme0n1".data exPostText).temp_before = "40".data ∧
     (parseContent "nvme0n1".data exPostText).temp_after = "55".data) :=
  post_test_scoping "nvme0n1".data exPostText exPostSuffix exNoMarkerText
    (by decide) (by decide)

/-- C5: extraction is total; an unreadable file (the caught-exception
path) yields the all-default record, and so do the empty text and a
minimal text matching no pattern. -/
theorem extraction_totality (nm : Text) :
    parse nm none = defaultData nm ∧
    parse nm (some []) = defaultData nm ∧
    parse nm (some "hello world".data) = defaultData nm :=
  ⟨rfl, rfl, rfl⟩

/-- C9: temp_before is the first temperature match over the full text with
no pre-test scoping: when the only temperature line follows the marker,
temp_before equals that post-test value; with a temperature line and no
marker, temp_before is set while temp_after keeps its default. -/
theorem temp_before_unscoped (nm t : Text) :
    (parseContent nm t).temp_before =
      (match searchFirst matchTempAt t with
       | some v => v
       | none => "Unknown".data) ∧
    ((parseContent nm exOnlyAfterText).temp_before = "55".data ∧
     (parseContent nm exOnlyAfterText).temp_after = "55".data) ∧
    ((parseContent nm exNoMarkerText).temp_before = "40".data ∧
     (parseContent nm exNoMarkerText).temp_after = "Unknown".data) :=
  ⟨rfl, ⟨rfl, rfl⟩, ⟨rfl, rfl⟩⟩

/-- C2: in both renderers the card badge class is `'status-passed'` iff
`health_status = 'PASSED'` and `errors = 0`, and both summary passed
counts equal the number of records satisfying exactly that predicate, so
badges and counts never diverge. -/
theorem pass_predicate_consistency (d : DeviceData) (drives : List DeviceData) :
    (status_class d = "status-passed".data ↔
      (d.health_status = "PASSED".data ∧ d.errors = 0)) ∧
    (status_class_peak d = "status-passed".data ↔
      (d.health_status = "PASSED".data ∧ d.errors = 0)) ∧
    status_class_peak d = status_class d ∧
    passed_count drives =
      drives.countP (fun r =>
        decide (r.health_status = "PASSED".data ∧ r.errors = 0)) ∧
    passed_count_peak drives =
      drives.countP (fun r =>
        decide (r.health_status = "PASSED".data ∧ r.errors = 0)) ∧
    passed_count_peak drives = passed_count drives := by
  have hcls : ∀ e : DeviceData,
      (if e.health_status = "PASSED".data ∧ e.errors = 0 then
        "status-passed".data else "status-failed".data) = "status-passed".data ↔
      (e.health_status = "PASSED".data ∧ e.errors = 0) := by
    intro e
    by_cases h : e.health_status = "PASSED".data ∧ e.errors = 0
    · simp [h]
    · rw [if_neg h]
      constructor
      · intro hbad
        exact absurd hbad (by decide)
      · intro hx
        exact absurd hx h
  refine ⟨hcls d, hcls d, rfl, ?_, ?_, rfl⟩
  · exact indicator_sum_eq_countP
      (fun r => r.health_status = "PASSED".data ∧ r.errors = 0) drives
  · exact indicator_sum_eq_countP
      (fun r => r.health_status = "PASSED".data ∧ r.errors = 0) drives

/-- C8: the raw link-speed string is mapped by the `if`/`elif` chain to
exactly one label of the fixed set (PCIe 5.0 for a 32 GT/s substring,
PCIe 4.0 for 16 GT/s, PCIe 3.0 for 8 GT/s, Unknown otherwise), the label
is paired with the raw lane-width string in the returned interface
descriptor, and a failed host query yields `('Unknown', 'Unknown')`. -/
theorem link_descriptor_mapping (speed width : Text) :
    get_pcie_info (some (speed, width)) =
      (pcieGenOf speed ++ " x".data ++ width, speed) ∧
    get_pcie_info none = ("Unknown".data, "Unknown".data) ∧
    pcieGenOf speed =
      (if containsSub "32.0 GT/s".data speed || containsSub "32 GT/s".data speed then
        "PCIe 5.0".data
      else if containsSub "16.0 GT/s".data speed || containsSub "16 GT/s".data speed then
        "PCIe 4.0".data
      else if containsSub "8.0 GT/s".data speed || containsSub "8 GT/s".data speed then
        "PCIe 3.0".data
      else "Unknown".data) ∧
    (pcieGenOf speed = "PCIe 5.0".data ∨ pcieGenOf speed = "PCIe 4.0".data ∨
     pcieGenOf speed = "PCIe 3.0".data ∨ pcieGenOf speed = "Unknown".data) ∧
    pcieGenOf "32.0 GT/s".data = "PCIe 5.0".data ∧
    pcieGenOf "32 GT/s".data = "PCIe 5.0".data ∧
    pcieGenOf "16.0 GT/s".data = "PCIe 4.0".data ∧
    pcieGenOf "16 GT/s".data = "PCIe 4.0".data ∧
    pcieGenOf "8.0 GT/s".data = "PCIe 3.0".data ∧
    pcieGenOf "8 GT/s".data = "PCIe 3.0".data ∧
    pcieGenOf "2.5 GT/s".data = "Unknown".data := by
  refine ⟨rfl, rfl, rfl, ?_, by decide, by decide, by decide, by decide,
    by decide, by decide, by decide⟩
  unfold pcieGenOf
  split_ifs <;> simp

/-- C6: extraction is a pure function of the source text, and the rendered
report is the fixed text determined by the records and host data with the
generation timestamp spliced in at exactly one position — so two renders
of the same input are identical except for the timestamp. -/
theorem render_idempotence (drives : List DeviceData)
    (pcie_info pcie_speed t1 t2 nm : Text) (c : Option Text) :
    generate_html_report drives pcie_info pcie_speed t1 =
      reportPrefix drives pcie_info pcie_speed ++ t1 ++ footerPost ∧
    generate_html_report drives pcie_info pcie_speed t2 =
      reportPrefix drives pcie_info pcie_speed ++ t2 ++ footerPost ∧
    parse nm c = parse nm c := by
  refine ⟨?_, ?_, rfl⟩ <;>
    simp [generate_html_report, reportPrefix, List.append_assoc]

/-- C7: both renderers emit the drive cards in ascending lexical order of
the drive name: the rendered card sequence is exactly the sorted
permutation of the input records, whatever their discovery order. -/
theorem sort_order (drives : List DeviceData) :
    List.Pairwise (fun x y : Text => charListLe x y = true)
      ((sortDrives drives).map DeviceData.drive_name) ∧
    ((sortDrives drives).map DeviceData.drive_name).Perm
      (drives.map DeviceData.drive_name) ∧
    (∀ p s t, generate_html_report drives p s t =
      htmlHeader drives.length (passed_count drives) p s ++
      ((sortDrives drives).map driveCard).flatten ++
      (footerPre p s ++ t ++ footerPost)) ∧
    (∀ p s t, generate_html_report_with_peak drives p s t =
      htmlHeaderPeak drives.length (passed_count_peak drives) p s ++
      ((sortDrives drives).map driveCardPeak).flatten ++
      (footerPrePeak drives p s ++ t ++ footerPost)) := by
  refine ⟨?_, ?_, fun p s t => rfl, fun p s t => rfl⟩
  · have hs := @List.sorted_mergeSort DeviceData
      (fun a b => charListLe a.drive_name b.drive_name)
      (fun a b c hab hbc => charListLe_trans _ _ _ hab hbc)
      (fun a b => charListLe_total _ _) drives
    exact List.pairwise_map.mpr hs
  · exact (List.mergeSort_perm drives _).map DeviceData.drive_name

/-- The FIO artifact of the claim: jobs = [ read with bw = 2048000 KB/s ]. -/
def fioEx2048000 : FioData := ⟨some [⟨some ⟨some 2048000⟩, none⟩]⟩

/-- A FIO artifact whose first job has read bw = 0. -/
def fioExZero : FioData := ⟨some [⟨some ⟨some 0⟩, none⟩]⟩

/-- A FIO artifact whose first job has neither a read nor a write key. -/
def fioExNoKeys : FioData := ⟨some [⟨none, none⟩]⟩

/-- C3: the merge consults only the first element of jobs, converts KB/s
to MiB/s by truncating division by 1024 (2048000 → the merged display
string `'2000 MiB/s'`), yields null for bw = 0, an absent read/write key,
or an unreadable/undecodable file, and an unset field renders as `'N/A'`
and is excluded from the average filter. -/
theorem peak_bandwidth_merge (nm : Text) (j : FioJob) (rest : List FioJob) :
    parse_fio_json (some fioEx2048000) = some 2000 ∧
    (merge_peak (defaultData nm) (some (some fioEx2048000)) none).peak_read_bw =
      some "2000 MiB/s".data ∧
    parse_fio_json (some fioExZero) = none ∧
    (merge_peak (defaultData nm) (some (some fioExZero)) none).peak_read_bw =
      none ∧
    peak_read_display (merge_peak (defaultData nm) (some (some fioExZero)) none) =
      "N/A".data ∧
    has_peak_read (merge_peak (defaultData nm) (some (some fioExZero)) none) =
      false ∧
    parse_fio_json (some fioExNoKeys) = none ∧
    parse_fio_json none = none ∧
    parse_fio_json (some ⟨some (j :: rest)⟩) = parse_fio_json (some ⟨some [j]⟩) :=
  ⟨rfl, rfl, rfl, rfl, rfl, rfl, rfl, rfl, rfl⟩

/-- C10: `parse_fio_json` checks the first job's read key before its write
key whatever artifact it is given: a positive read bw wins even when the
write bw is positive too (2048 KB/s read beats 4096000 KB/s write), and
the write branch is consulted exactly when read is absent, lacks bw, or
has bw = 0. -/
theorem fio_read_before_write (w : Option FioDirStats) (rest : List FioJob)
    (b : Nat) :
    parse_fio_json (some ⟨some (⟨some ⟨some (b + 1)⟩, w⟩ :: rest)⟩) =
      some ((b + 1) / 1024) ∧
    parse_fio_json (some ⟨some (⟨some ⟨some 2048⟩, some ⟨some 4096000⟩⟩ :: rest)⟩) =
      some 2 ∧
    parse_fio_json (some ⟨some (⟨none, w⟩ :: rest)⟩) =
      fio_write_branch ⟨none, w⟩ ∧
    parse_fio_json (some ⟨some (⟨some ⟨none⟩, w⟩ :: rest)⟩) =
      fio_write_branch ⟨some ⟨none⟩, w⟩ ∧
    parse_fio_json (some ⟨some (⟨some ⟨some 0⟩, w⟩ :: rest)⟩) =
      fio_write_branch ⟨some ⟨some 0⟩, w⟩ ∧
    fio_write_branch ⟨some ⟨some 0⟩, some ⟨some 4096000⟩⟩ = some 4000 := by
  refine ⟨?_, rfl, rfl, rfl, rfl, rfl⟩
  show (if b + 1 > 0 then some ((b + 1) / 1024)
    else fio_write_branch ⟨some ⟨some (b + 1)⟩, w⟩) = some ((b + 1) / 1024)
  exact if_pos (Nat.succ_pos b)

/-- A record with a merged peak-read field of 1000 MiB/s. -/
def dPeakA : DeviceData :=
  { defaultData "a".data with peak_read_bw := some "1000 MiB/s".data }

/-- A record with no peak fields. -/
def dPeakNone : DeviceData := defaultData "b".data

/-- A record with a merged peak-read field of 3000 MiB/s. -/
def dPeakC : DeviceData :=
  { defaultData "c".data with peak_read_bw := some "3000 MiB/s".data }

/-- C4: the average peak bandwidth is the mean of the leading integers of
the present display strings with denominator `max(count, 1)`: a record
without the field changes neither numerator nor denominator, three devices
of which two carry 1000 and 3000 MiB/s average to 2000, and an all-absent
field yields 0 without dividing by zero. -/
theorem average_exclusion (drives : List DeviceData) (d : DeviceData)
    (h1 : d.peak_read_bw = none) (h2 : d.peak_write_bw = none) :
    avg_peak_read (d :: drives) = avg_peak_read drives ∧
    avg_peak_write (d :: drives) = avg_peak_write drives ∧
    avg_peak_read [dPeakA, dPeakNone, dPeakC] = 2000 ∧
    avg_peak_write [dPeakA, dPeakNone, dPeakC] = 0 ∧
    avg_peak_read [dPeakNone] = 0 := by
  have hfr : has_peak_read d = false := by simp [has_peak_read, h1]
  have hfw : has_peak_write d = false := by simp [has_peak_write, h2]
  have hnum : ([dPeakA, dPeakNone, dPeakC].filter has_peak_read).map
      (fun d => digitsToNat (firstToken (d.peak_read_bw.getD "0".data))) =
      [1000, 3000] := by decide
  have hcnt : peak_read_count [dPeakA, dPeakNone, dPeakC] = 2 := by decide
  have hnumw : ([dPeakA, dPeakNone, dPeakC].filter has_peak_write).map
      (fun d => digitsToNat (firstToken (d.peak_write_bw.getD "0".data))) =
      ([] : List Nat) := by decide
  have hcntw : peak_write_count [dPeakA, dPeakNone, dPeakC] = 0 := by decide
  have hnum1 : ([dPeakNone].filter has_peak_read).map
      (fun d => digitsToNat (firstToken (d.peak_read_bw.getD "0".data))) =
      ([] : List Nat) := by decide
  have hcnt1 : peak_read_count [dPeakNone] = 0 := by decide
  refine ⟨?_, ?_, ?_, ?_, ?_⟩
  · simp [avg_peak_read, peak_read_count, List.filter_cons, hfr]
  · simp [avg_peak_write, peak_write_count, List.filter_cons, hfw]
  · unfold avg_peak_read
    rw [show (fun d : DeviceData =>
        ((digitsToNat (firstToken (d.peak_read_bw.getD "0".data)) : ℚ))) =
        (fun n : Nat => (n : ℚ)) ∘
          (fun d => digitsToNat (firstToken (d.peak_read_bw.getD "0".data)))
      from rfl, ← List.map_map, hnum, hcnt]
    norm_num
  · unfold avg_peak_write
    rw [show (fun d : DeviceData =>
        ((digitsToNat (firstToken (d.peak_write_bw.getD "0".data)) : ℚ))) =
        (fun n : Nat => (n : ℚ)) ∘
          (fun d => digitsToNat (firstToken (d.peak_write_bw.getD "0".data)))
      from rfl, ← List.map_map, hnumw, hcntw]
    norm_num
  · unfold avg_peak_read
    rw [show (fun d : DeviceData =>
        ((digitsToNat (firstToken (d.peak_read_bw.getD "0".data)) : ℚ))) =
        (fun n : Nat => (n : ℚ)) ∘
          (fun d => digitsToNat (firstToken (d.peak_read_bw.getD "0".data)))
      from rfl, ← List.map_map, hnum1, hcnt1]
    norm_num

/-- C4 witness: the theorem instantiated with the field-free record in
front of the two records carrying peak values. -/
theorem average_exclusion_witness :
    avg_peak_read (dPeakNone :: [dPeakA, dPeakC]) = avg_peak_read [dPeakA, dPeakC] ∧
    avg_peak_write (dPeakNone :: [dPeakA, dPeakC]) = avg_peak_write [dPeakA, dPeakC] ∧
    avg_peak_read [dPeakA, dPeakNone, dPeakC] = 2000 ∧
    avg_peak_write [dPeakA, dPeakNone, dPeakC] = 0 ∧
    avg_peak_read [dPeakNone] = 0 :=
  average_exclusion [dPeakA, dPeakC] dPeakNone rfl rfl

end NvmeReport
